import Mathlib

/-!
Verification of the tenant scoring, filtering and aggregation core of the
HMO tenant-analysis dashboard (src/scripts/app.py), shallowly embedded in
Lean.  Pure Python functions become Lean functions; pandas column
operations over the dataframe become list operations over records; the
floating point score arithmetic (sums of small integer constants and one
half-point reference contribution, all exactly representable) is embedded
in the rationals.
-/

/-- One row of the uploaded tenant CSV, after the damage-field
normalisation of app.py line 170.  Numeric columns are embedded with their
semantic types (counts as `Nat`, credit score as `Int`, monetary and
fractional values as `ℚ`); boolean-as-text and enumerated columns stay
`String`, exactly as the Python code compares them. -/
structure TenantRecord where
  name : String
  age : Nat
  employmentStatus : String
  annualIncome : ℚ
  monthlySalary : ℚ
  rentPaidOnTime : String
  latePayments : Nat
  damageToProperty : String
  noiseComplaints : Nat
  roomCleanliness : String
  tenancyMonths : Nat
  employmentYears : ℚ
  evictionNotice : String
  creditScore : Int
  referenceScore : ℚ
  smokingStatus : String
  petOwner : String
deriving DecidableEq, Repr

/-- Payment reliability block of `calculate_tenant_score`
(app.py lines 80-86, 30 points max). -/
def paymentPoints (row : TenantRecord) : ℚ :=
  (if row.rentPaidOnTime = "Yes" then 25 else 0) +
  (if row.latePayments = 0 then 5 else if row.latePayments ≤ 2 then 2 else 0)

/-- Property care block (app.py lines 88-94, 20 points max). -/
def propertyCarePoints (row : TenantRecord) : ℚ :=
  (if row.damageToProperty = "No" then 15 else 0) +
  (if row.noiseComplaints = 0 then 5 else if row.noiseComplaints ≤ 1 then 2 else 0)

/-- Cleanliness block (app.py lines 96-98): the dict lookup
`cleanliness_scores.get(row, 0)`; the explicit Poor entry and the
default both give 0. -/
def cleanlinessPoints (row : TenantRecord) : ℚ :=
  if row.roomCleanliness = "Excellent" then 5
  else if row.roomCleanliness = "Good" then 3
  else if row.roomCleanliness = "Average" then 1
  else 0

/-- Stability block (app.py lines 100-112, 20 points max). -/
def stabilityPoints (row : TenantRecord) : ℚ :=
  (if row.tenancyMonths ≥ 12 then 10 else if row.tenancyMonths ≥ 6 then 5 else 0) +
  (if row.employmentYears ≥ 2 then 5 else if row.employmentYears ≥ 1 then 3 else 0) +
  (if row.evictionNotice = "No" then 5 else 0)

/-- Financial stability block (app.py lines 114-120, 8 points max). -/
def financialPoints (row : TenantRecord) : ℚ :=
  if row.creditScore ≥ 750 then 8
  else if row.creditScore ≥ 650 then 5
  else if row.creditScore ≥ 550 then 2
  else 0

/-- Reference block (app.py line 123):
`min(row['Reference Score (1-10)'] * 0.5, 5)`. -/
def referencePoints (row : TenantRecord) : ℚ :=
  min (row.referenceScore * (1 / 2)) 5

/-- Lifestyle block (app.py lines 125-129, 4 points max). -/
def lifestylePoints (row : TenantRecord) : ℚ :=
  (if row.smokingStatus = "Non-smoker" then 2 else 0) +
  (if row.petOwner = "No" then 2 else 0)

/-- `calculate_tenant_score` (app.py lines 76-131): the running total of the
rule blocks, finally clamped by `min(score, 100)`. -/
def calculate_tenant_score (row : TenantRecord) : ℚ :=
  min (paymentPoints row + propertyCarePoints row + cleanlinessPoints row +
       stabilityPoints row + financialPoints row + referencePoints row +
       lifestylePoints row) 100

/-- `categorize_tenant` (app.py lines 133-144). -/
def categorize_tenant (score : ℚ) : String :=
  if score ≥ 80 then "Excellent (Premium)"
  else if score ≥ 70 then "Very Good"
  else if score ≥ 60 then "Good"
  else if score ≥ 50 then "Average"
  else "Poor (High Risk)"

/-- The damage-column normalisation of app.py line 170:
`df['Damage To Property'].fillna('Not Available')` applied to one cell. -/
def fillDamage (raw : Option String) : String :=
  raw.getD "Not Available"

/-- The section-3 data-model constraints that are not already enforced by
the field types: employment duration is a non-negative float and the
reference score is a float in [1,10].  (Late payments, noise complaints
and tenancy duration are `Nat` fields, hence non-negative by type.) -/
def ValidRecord (row : TenantRecord) : Prop :=
  0 ≤ row.employmentYears ∧ 1 ≤ row.referenceScore ∧ row.referenceScore ≤ 10

/-- The payment-reliability selectbox of app.py lines 209-213:
one of 'All', 'Pays On Time Only', 'Has Late Payments'. -/
inductive PaymentFilter
  | All
  | PaysOnTimeOnly
  | HasLatePayments
deriving DecidableEq, Repr

/-- `filtered_df` (app.py lines 216-225): the dataframe boolean-mask
conjunction (score floor, category set, employment set), then the
payment-reliability narrowing.  Each mask keeps rows in original order,
which `List.filter` models. -/
def filtered_df (minScore : ℚ) (categories employmentOptions : List String)
    (payment : PaymentFilter) (df : List TenantRecord) : List TenantRecord :=
  let base := df.filter fun r =>
    decide (calculate_tenant_score r ≥ minScore) &&
    decide (categorize_tenant (calculate_tenant_score r) ∈ categories) &&
    decide (r.employmentStatus ∈ employmentOptions)
  match payment with
  | .All => base
  | .PaysOnTimeOnly => base.filter fun r => decide (r.rentPaidOnTime = "Yes")
  | .HasLatePayments => base.filter fun r => decide (r.rentPaidOnTime = "No")

/-- The filter as the claim words it (for refinement comparison only):
identical to `filtered_df` except that the 'has late payment' mode keeps
exactly the records with at least one late payment. -/
def filtered_df_asClaimed (minScore : ℚ) (categories employmentOptions : List String)
    (payment : PaymentFilter) (df : List TenantRecord) : List TenantRecord :=
  df.filter fun r =>
    decide (calculate_tenant_score r ≥ minScore) &&
    decide (categorize_tenant (calculate_tenant_score r) ∈ categories) &&
    decide (r.employmentStatus ∈ employmentOptions) &&
    (match payment with
     | .All => true
     | .PaysOnTimeOnly => decide (r.rentPaidOnTime = "Yes")
     | .HasLatePayments => decide (1 ≤ r.latePayments))

/-- Comparator modelling `nlargest(n, 'Tenant_Quality_Score')`
(app.py lines 276 and 508, default keep='first') over position-tagged
rows: order by score descending, ties by original position ascending. -/
def nlargestLE (p q : Nat × TenantRecord) : Bool :=
  decide (calculate_tenant_score q.2 < calculate_tenant_score p.2) ||
  (decide (calculate_tenant_score p.2 = calculate_tenant_score q.2) && decide (p.1 ≤ q.1))

/-- `nlargest` on the score column, keeping the original positions. -/
def nlargestScore (n : Nat) (df : List TenantRecord) : List (Nat × TenantRecord) :=
  (df.enum.mergeSort nlargestLE).take n

/-- `top_tenants = filtered_df.nlargest(top_n, 'Tenant_Quality_Score')`
(app.py line 276), as the resulting row list. -/
def top_tenants (n : Nat) (df : List TenantRecord) : List TenantRecord :=
  (nlargestScore n df).map Prod.snd

/-- `pd.cut(df['Age'], bins=[0, 25, 35, 45, 100], labels=[...])`
(app.py line 177): right-closed bins (0,25], (25,35], (35,45], (45,100];
an age outside every bin gets no bucket (pandas NaN). -/
def ageGroupOf (age : Nat) : Option String :=
  if age = 0 then none
  else if age ≤ 25 then some "18-25"
  else if age ≤ 35 then some "26-35"
  else if age ≤ 45 then some "36-45"
  else if age ≤ 100 then some "45+"
  else none

/-- Arithmetic mean of the quality scores of a list of rows
(`['Tenant_Quality_Score'].mean()`). -/
def meanScore (rs : List TenantRecord) : ℚ :=
  (rs.map calculate_tenant_score).sum / rs.length

/-- One group of the `groupby('Age_Group')['Tenant_Quality_Score'].mean()`
of app.py line 465.  The age-group column is categorical, and the groupby
keeps every category (pandas default observed=False), so an empty bucket
produces a NaN mean, modelled as `none`. -/
def ageGroupMean (g : String) (rs : List TenantRecord) : Option ℚ :=
  let xs := rs.filter fun r => decide (ageGroupOf r.age = some g)
  if xs.length = 0 then none else some (meanScore xs)

/-- Comparator for `.sort_values(ascending=False)` on a series with NaN
entries (app.py line 465): non-NaN values descending, NaN placed last. -/
def naLastDescLE (p q : String × Option ℚ) : Bool :=
  match p.2, q.2 with
  | some a, some b => decide (b ≤ a)
  | some _, none => true
  | none, some _ => false
  | none, none => true

/-- `age_performance` (app.py line 465): per-category mean of the score
over the four age buckets, sorted descending with NaN last. -/
def age_performance (rs : List TenantRecord) : List (String × Option ℚ) :=
  (["18-25", "26-35", "36-45", "45+"].map fun g => (g, ageGroupMean g rs)).mergeSort
    naLastDescLE

/-- The employment-impact insight (app.py lines 445-451): the employed and
unemployed mean scores, reported only when both groups are non-empty. -/
def employment_impact (rs : List TenantRecord) : Option (ℚ × ℚ) :=
  let employed := rs.filter fun r => decide (r.employmentStatus ≠ "Unemployed")
  let unemployed := rs.filter fun r => decide (r.employmentStatus = "Unemployed")
  if 0 < employed.length ∧ 0 < unemployed.length then
    some (meanScore employed, meanScore unemployed)
  else none

/-- `filtered_df['Annual Income (£)'].median()` (app.py line 454):
midpoint of the sorted incomes; `none` models the NaN median of an empty
column. -/
def medianIncome (rs : List TenantRecord) : Option ℚ :=
  let xs := (rs.map fun r => r.annualIncome).mergeSort fun a b => decide (a ≤ b)
  let n := xs.length
  if n = 0 then none
  else if n % 2 = 1 then xs[n / 2]?
  else match xs[n / 2 - 1]?, xs[n / 2]? with
    | some a, some b => some ((a + b) / 2)
    | _, _ => none

/-- The income-analysis insight (app.py lines 453-461): mean score of the
at-or-above-median and below-median halves, reported only when both
halves are non-empty.  An empty set has a NaN median, every comparison
with which is false, so nothing is reported; `none` models that. -/
def income_analysis (rs : List TenantRecord) : Option (ℚ × ℚ) :=
  match medianIncome rs with
  | none => none
  | some m =>
    let high := rs.filter fun r => decide (m ≤ r.annualIncome)
    let low := rs.filter fun r => decide (r.annualIncome < m)
    if 0 < high.length ∧ 0 < low.length then some (meanScore high, meanScore low)
    else none

/-- The credit-score-impact insight (app.py lines 470-480): one labelled
mean per fixed credit tier, each reported only when its tier is
non-empty. -/
def credit_impact (rs : List TenantRecord) : List (String × ℚ) :=
  let excellent := rs.filter fun r => decide (750 ≤ r.creditScore)
  let good := rs.filter fun r => decide (650 ≤ r.creditScore ∧ r.creditScore < 750)
  let poor := rs.filter fun r => decide (r.creditScore < 650)
  (if 0 < excellent.length then [("Excellent credit (750+)", meanScore excellent)] else []) ++
  (if 0 < good.length then [("Good credit (650-749)", meanScore good)] else []) ++
  (if 0 < poor.length then [("Poor credit (<650)", meanScore poor)] else [])

/-- The all-negative-signal example record of the spec: every rule misses,
except that reference score 1 still contributes min(1 * 0.5, 5). -/
def allNegativeRecord : TenantRecord :=
  { name := "Mike Brown", age := 30, employmentStatus := "Unemployed",
    annualIncome := 9000, monthlySalary := 750,
    rentPaidOnTime := "No", latePayments := 5, damageToProperty := "Yes",
    noiseComplaints := 3, roomCleanliness := "Poor", tenancyMonths := 2,
    employmentYears := 0, evictionNotice := "Yes", creditScore := 500,
    referenceScore := 1, smokingStatus := "Smoker", petOwner := "Yes" }

/-- The perfect-signal example record of the spec (score 92). -/
def perfectRecord : TenantRecord :=
  { name := "John Smith", age := 28, employmentStatus := "Full-time",
    annualIncome := 35000, monthlySalary := 2900,
    rentPaidOnTime := "Yes", latePayments := 0, damageToProperty := "No",
    noiseComplaints := 0, roomCleanliness := "Excellent",
    tenancyMonths := 18, employmentYears := 3, evictionNotice := "No",
    creditScore := 780, referenceScore := 10,
    smokingStatus := "Non-smoker", petOwner := "No" }

/-- A record that pays on time yet has three late payments on file: the
case separating the two readings of the 'has late payments' filter. -/
def onTimeLateRecord : TenantRecord :=
  { perfectRecord with name := "Sarah Johnson", latePayments := 3 }

/-- A tenant aged 20, giving a filtered set whose only non-empty age
bucket is 18-25. -/
def youngRecord : TenantRecord :=
  { perfectRecord with name := "Young", age := 20 }

/-- `perfectRecord` with every field outside the twelve scoring rules
changed. -/
def renamedPerfectRecord : TenantRecord :=
  { perfectRecord with
    name := "Someone Else"
    age := 77
    employmentStatus := "Part-time"
    annualIncome := 1
    monthlySalary := 2 }

/-- A record whose raw damage cell is missing, after the fillna
normalisation. -/
def missingDamageRecord : TenantRecord :=
  { perfectRecord with damageToProperty := fillDamage none }

lemma paymentPoints_nonneg (row : TenantRecord) : 0 ≤ paymentPoints row := by
  unfold paymentPoints; split_ifs <;> norm_num

lemma paymentPoints_le (row : TenantRecord) : paymentPoints row ≤ 30 := by
  unfold paymentPoints; split_ifs <;> norm_num

lemma propertyCarePoints_nonneg (row : TenantRecord) : 0 ≤ propertyCarePoints row := by
  unfold propertyCarePoints; split_ifs <;> norm_num

lemma propertyCarePoints_le (row : TenantRecord) : propertyCarePoints row ≤ 20 := by
  unfold propertyCarePoints; split_ifs <;> norm_num

lemma cleanlinessPoints_nonneg (row : TenantRecord) : 0 ≤ cleanlinessPoints row := by
  unfold cleanlinessPoints; split_ifs <;> norm_num

lemma cleanlinessPoints_le (row : TenantRecord) : cleanlinessPoints row ≤ 5 := by
  unfold cleanlinessPoints; split_ifs <;> norm_num

lemma stabilityPoints_nonneg (row : TenantRecord) : 0 ≤ stabilityPoints row := by
  unfold stabilityPoints; split_ifs <;> norm_num

lemma stabilityPoints_le (row : TenantRecord) : stabilityPoints row ≤ 20 := by
  unfold stabilityPoints; split_ifs <;> norm_num

lemma financialPoints_nonneg (row : TenantRecord) : 0 ≤ financialPoints row := by
  unfold financialPoints; split_ifs <;> norm_num

lemma financialPoints_le (row : TenantRecord) : financialPoints row ≤ 8 := by
  unfold financialPoints; split_ifs <;> norm_num

lemma referencePoints_nonneg (row : TenantRecord) (h : 1 ≤ row.referenceScore) :
    0 ≤ referencePoints row := by
  unfold referencePoints
  exact le_min (by linarith) (by norm_num)

lemma referencePoints_le (row : TenantRecord) : referencePoints row ≤ 5 :=
  min_le_right _ _

lemma lifestylePoints_nonneg (row : TenantRecord) : 0 ≤ lifestylePoints row := by
  unfold lifestylePoints; split_ifs <;> norm_num

lemma lifestylePoints_le (row : TenantRecord) : lifestylePoints row ≤ 4 := by
  unfold lifestylePoints; split_ifs <;> norm_num

/-- The sum of the rule blocks never exceeds 92, so the clamp at 100 in
`calculate_tenant_score` can never be attained. -/
lemma calculate_tenant_score_le_92 (row : TenantRecord) :
    calculate_tenant_score row ≤ 92 := by
  have h := min_le_left
    (paymentPoints row + propertyCarePoints row + cleanlinessPoints row +
     stabilityPoints row + financialPoints row + referencePoints row +
     lifestylePoints row) (100 : ℚ)
  have h1 := paymentPoints_le row
  have h2 := propertyCarePoints_le row
  have h3 := cleanlinessPoints_le row
  have h4 := stabilityPoints_le row
  have h5 := financialPoints_le row
  have h6 := referencePoints_le row
  have h7 := lifestylePoints_le row
  unfold calculate_tenant_score
  calc min (paymentPoints row + propertyCarePoints row + cleanlinessPoints row +
        stabilityPoints row + financialPoints row + referencePoints row +
        lifestylePoints row) 100 ≤ _ := min_le_left _ _
    _ ≤ 92 := by linarith

lemma perfectRecord_score : calculate_tenant_score perfectRecord = 92 := by
  simp +decide [calculate_tenant_score, paymentPoints, propertyCarePoints,
    cleanlinessPoints, stabilityPoints, financialPoints, referencePoints,
    lifestylePoints, perfectRecord, min_def]
  norm_num

lemma allNegativeRecord_score : calculate_tenant_score allNegativeRecord = 1 / 2 := by
  simp +decide [calculate_tenant_score, paymentPoints, propertyCarePoints,
    cleanlinessPoints, stabilityPoints, financialPoints, referencePoints,
    lifestylePoints, allNegativeRecord, min_def]
  norm_num

lemma perfectRecord_valid : ValidRecord perfectRecord := by
  refine ⟨?_, ?_, ?_⟩ <;> norm_num [perfectRecord]

/-- C1: for every tenant record satisfying the section-3 data-model
constraints, calculate_tenant_score returns a value in [0,100].  (The
enriched quality score is computed once from the record and never
recomputed or mutated by the later filter, sort, top-N or aggregation
operations, which only select and reorder records, so the bound persists
through every later operation.) -/
theorem tenant_score_in_range (row : TenantRecord) (h : ValidRecord row) :
    0 ≤ calculate_tenant_score row ∧ calculate_tenant_score row ≤ 100 := by
  obtain ⟨hemp, href1, href10⟩ := h
  constructor
  · unfold calculate_tenant_score
    refine le_min ?_ (by norm_num)
    have h1 := paymentPoints_nonneg row
    have h2 := propertyCarePoints_nonneg row
    have h3 := cleanlinessPoints_nonneg row
    have h4 := stabilityPoints_nonneg row
    have h5 := financialPoints_nonneg row
    have h6 := referencePoints_nonneg row href1
    have h7 := lifestylePoints_nonneg row
    linarith
  · exact min_le_right _ _

theorem tenant_score_in_range_witness :
    0 ≤ calculate_tenant_score perfectRecord ∧
    calculate_tenant_score perfectRecord ≤ 100 :=
  tenant_score_in_range perfectRecord perfectRecord_valid

/-- C2: categorize_tenant is a total function of the score assigning each
of the five labels exactly on its band: Excellent (Premium) iff 80 ≤ s,
Very Good iff 70 ≤ s < 80, Good iff 60 ≤ s < 70, Average iff 50 ≤ s < 60,
Poor (High Risk) iff s < 50; every score gets one of the five labels. -/
theorem categorize_tenant_bands (s : ℚ) :
    (categorize_tenant s = "Excellent (Premium)" ↔ 80 ≤ s) ∧
    (categorize_tenant s = "Very Good" ↔ 70 ≤ s ∧ s < 80) ∧
    (categorize_tenant s = "Good" ↔ 60 ≤ s ∧ s < 70) ∧
    (categorize_tenant s = "Average" ↔ 50 ≤ s ∧ s < 60) ∧
    (categorize_tenant s = "Poor (High Risk)" ↔ s < 50) ∧
    categorize_tenant s ∈
      ["Excellent (Premium)", "Very Good", "Good", "Average", "Poor (High Risk)"] := by
  unfold categorize_tenant
  split_ifs with h1 h2 h3 h4 <;> simp_all <;> (repeat' constructor) <;>
    (try intro) <;> linarith

theorem categorize_tenant_bands_witness :
    (categorize_tenant 75 = "Excellent (Premium)" ↔ 80 ≤ (75 : ℚ)) ∧
    (categorize_tenant 75 = "Very Good" ↔ 70 ≤ (75 : ℚ) ∧ (75 : ℚ) < 80) ∧
    (categorize_tenant 75 = "Good" ↔ 60 ≤ (75 : ℚ) ∧ (75 : ℚ) < 70) ∧
    (categorize_tenant 75 = "Average" ↔ 50 ≤ (75 : ℚ) ∧ (75 : ℚ) < 60) ∧
    (categorize_tenant 75 = "Poor (High Risk)" ↔ (75 : ℚ) < 50) ∧
    categorize_tenant 75 ∈
      ["Excellent (Premium)", "Very Good", "Good", "Average", "Poor (High Risk)"] :=
  categorize_tenant_bands 75

/-- C3 fails as stated: on the all-negative-signal record the score is not
exactly 0, because reference score 1 still contributes min(1 * 0.5, 5) =
0.5 points. -/
theorem allNegativeRecord_score_ne_zero :
    calculate_tenant_score allNegativeRecord ≠ 0 := by
  rw [allNegativeRecord_score]; norm_num

/-- C3 amended: on the all-negative-signal record the score is exactly 0.5
(the reference-score rule contributes min(1 * 0.5, 5) = 0.5 and every
other rule contributes 0), and the category is Poor (High Risk). -/
theorem allNegativeRecord_score_half :
    calculate_tenant_score allNegativeRecord = 1 / 2 ∧
    categorize_tenant (calculate_tenant_score allNegativeRecord) =
      "Poor (High Risk)" := by
  refine ⟨allNegativeRecord_score, ?_⟩
  rw [allNegativeRecord_score]
  unfold categorize_tenant
  split_ifs <;> first | rfl | linarith

/-- C4 fails as stated: no record satisfying the section-3 constraints
reaches a score of 100, since the rule contributions sum to at most 92 and
the clamp at 100 is therefore never attained. -/
theorem score_100_unreachable :
    ¬ ∃ row : TenantRecord, ValidRecord row ∧ calculate_tenant_score row = 100 := by
  rintro ⟨row, -, h⟩
  have := calculate_tenant_score_le_92 row
  rw [h] at this
  norm_num at this

/-- C4 amended: the maximum reachable score is 92, attained by the
perfect-signal record; every record scores at most 92, so the clamp at 100
in calculate_tenant_score never binds. -/
theorem max_score_92 :
    (∃ row : TenantRecord, ValidRecord row ∧ calculate_tenant_score row = 92) ∧
    ∀ row : TenantRecord, calculate_tenant_score row ≤ 92 :=
  ⟨⟨perfectRecord, perfectRecord_valid, perfectRecord_score⟩,
    calculate_tenant_score_le_92⟩

/-- C9: a missing Damage To Property cell is normalized to the literal
'Not Available' by the fillna of app.py line 170; scoring is total on the
normalized value, the damage rule then contributes 0 points, and no value
other than the literal 'No' can earn the 15 damage points (without 'No'
the whole property-care block is at most the 5 noise points). -/
theorem missing_damage_scores_zero (raw : Option String) (row : TenantRecord)
    (hraw : raw = none) (hrow : row.damageToProperty = fillDamage raw) :
    row.damageToProperty = "Not Available" ∧
    propertyCarePoints row =
      (if row.noiseComplaints = 0 then (5 : ℚ)
       else if row.noiseComplaints ≤ 1 then 2 else 0) ∧
    ∀ r : TenantRecord, r.damageToProperty ≠ "No" → propertyCarePoints r ≤ 5 := by
  subst hraw
  refine ⟨hrow, ?_, ?_⟩
  · rw [propertyCarePoints, hrow]
    simp +decide [fillDamage]
  · intro r h
    unfold propertyCarePoints
    split_ifs <;> simp_all
    norm_num

theorem missing_damage_scores_zero_witness :
    missingDamageRecord.damageToProperty = "Not Available" ∧
    propertyCarePoints missingDamageRecord =
      (if missingDamageRecord.noiseComplaints = 0 then (5 : ℚ)
       else if missingDamageRecord.noiseComplaints ≤ 1 then 2 else 0) ∧
    ∀ r : TenantRecord, r.damageToProperty ≠ "No" → propertyCarePoints r ≤ 5 :=
  missing_damage_scores_zero none missingDamageRecord rfl rfl

/-- C10: calculate_tenant_score depends only on the twelve rule fields:
two records agreeing on them get equal scores, whatever their name, age,
employment status, annual income or monthly salary. -/
theorem score_ignores_non_rule_fields (r1 r2 : TenantRecord)
    (h1 : r1.rentPaidOnTime = r2.rentPaidOnTime)
    (h2 : r1.latePayments = r2.latePayments)
    (h3 : r1.damageToProperty = r2.damageToProperty)
    (h4 : r1.noiseComplaints = r2.noiseComplaints)
    (h5 : r1.roomCleanliness = r2.roomCleanliness)
    (h6 : r1.tenancyMonths = r2.tenancyMonths)
    (h7 : r1.employmentYears = r2.employmentYears)
    (h8 : r1.evictionNotice = r2.evictionNotice)
    (h9 : r1.creditScore = r2.creditScore)
    (h10 : r1.referenceScore = r2.referenceScore)
    (h11 : r1.smokingStatus = r2.smokingStatus)
    (h12 : r1.petOwner = r2.petOwner) :
    calculate_tenant_score r1 = calculate_tenant_score r2 := by
  unfold calculate_tenant_score paymentPoints propertyCarePoints
    cleanlinessPoints stabilityPoints financialPoints referencePoints
    lifestylePoints
  rw [h1, h2, h3, h4, h5, h6, h7, h8, h9, h10, h11, h12]

theorem score_ignores_non_rule_fields_witness :
    calculate_tenant_score perfectRecord =
      calculate_tenant_score renamedPerfectRecord :=
  score_ignores_non_rule_fields perfectRecord renamedPerfectRecord
    rfl rfl rfl rfl rfl rfl rfl rfl rfl rfl rfl rfl

lemma onTimeLateRecord_score : calculate_tenant_score onTimeLateRecord = 87 := by
  simp +decide [calculate_tenant_score, paymentPoints, propertyCarePoints,
    cleanlinessPoints, stabilityPoints, financialPoints, referencePoints,
    lifestylePoints, onTimeLateRecord, perfectRecord, min_def]
  norm_num

/-- C7 fails as stated: a record that pays on time but has three late
payments on file passes the score, category and employment predicates,
has late payments ≥ 1, yet the code's 'Has Late Payments' mode drops it,
because app.py line 225 filters on Rent Paid On Time == 'No' rather than
on the Late Payments count; the claim's reading of the mode keeps it. -/
theorem hasLate_filter_mismatch :
    1 ≤ onTimeLateRecord.latePayments ∧
    filtered_df 0 ["Excellent (Premium)"] ["Full-time"] .HasLatePayments
      [onTimeLateRecord] = [] ∧
    filtered_df_asClaimed 0 ["Excellent (Premium)"] ["Full-time"] .HasLatePayments
      [onTimeLateRecord] = [onTimeLateRecord] := by
  have hemp : onTimeLateRecord.employmentStatus = "Full-time" := rfl
  have hrent : onTimeLateRecord.rentPaidOnTime = "Yes" := rfl
  have hcat : categorize_tenant (calculate_tenant_score onTimeLateRecord) =
      "Excellent (Premium)" := by
    rw [onTimeLateRecord_score]; unfold categorize_tenant; norm_num
  have hge : calculate_tenant_score onTimeLateRecord ≥ (0 : ℚ) := by
    rw [onTimeLateRecord_score]; norm_num
  have hlate : 1 ≤ onTimeLateRecord.latePayments := by
    norm_num [onTimeLateRecord, perfectRecord]
  refine ⟨hlate, ?_, ?_⟩
  · simp +decide [filtered_df, hcat, hemp, hrent, hge]
  · simp +decide [filtered_df_asClaimed, hcat, hemp, hge, hlate]

/-- C7 amended: the filter result is exactly the ordered subsequence of
records satisfying all of: score ≥ floor, category in the selected set,
employment status in the selected set, and the payment mode — where
'on-time only' keeps exactly the records with Rent Paid On Time = 'Yes'
and 'has late payments' keeps exactly the records with Rent Paid On Time
= 'No' (not the records with Late Payments ≥ 1). -/
theorem filtered_df_eq_filter (minScore : ℚ)
    (categories employmentOptions : List String) (payment : PaymentFilter)
    (df : List TenantRecord) :
    filtered_df minScore categories employmentOptions payment df =
      df.filter (fun r =>
        decide (calculate_tenant_score r ≥ minScore) &&
        decide (categorize_tenant (calculate_tenant_score r) ∈ categories) &&
        decide (r.employmentStatus ∈ employmentOptions) &&
        (match payment with
         | .All => true
         | .PaysOnTimeOnly => decide (r.rentPaidOnTime = "Yes")
         | .HasLatePayments => decide (r.rentPaidOnTime = "No"))) ∧
    (filtered_df minScore categories employmentOptions payment df).Sublist df := by
  have h : filtered_df minScore categories employmentOptions payment df =
      df.filter (fun r =>
        decide (calculate_tenant_score r ≥ minScore) &&
        decide (categorize_tenant (calculate_tenant_score r) ∈ categories) &&
        decide (r.employmentStatus ∈ employmentOptions) &&
        (match payment with
         | .All => true
         | .PaysOnTimeOnly => decide (r.rentPaidOnTime = "Yes")
         | .HasLatePayments => decide (r.rentPaidOnTime = "No"))) := by
    cases payment with
    | All => simp [filtered_df]
    | PaysOnTimeOnly =>
        simp only [filtered_df, List.filter_filter]
        exact List.filter_congr fun a _ => by rw [Bool.and_comm]
    | HasLatePayments =>
        simp only [filtered_df, List.filter_filter]
        exact List.filter_congr fun a _ => by rw [Bool.and_comm]
  refine ⟨h, ?_⟩
  rw [h]
  exact List.filter_sublist df

theorem filtered_df_eq_filter_witness :
    filtered_df 0 ["Excellent (Premium)"] ["Full-time"] .PaysOnTimeOnly
      [perfectRecord] =
      [perfectRecord].filter (fun r =>
        decide (calculate_tenant_score r ≥ (0 : ℚ)) &&
        decide (categorize_tenant (calculate_tenant_score r) ∈
          ["Excellent (Premium)"]) &&
        decide (r.employmentStatus ∈ ["Full-time"]) &&
        (match PaymentFilter.PaysOnTimeOnly with
         | .All => true
         | .PaysOnTimeOnly => decide (r.rentPaidOnTime = "Yes")
         | .HasLatePayments => decide (r.rentPaidOnTime = "No"))) ∧
    (filtered_df 0 ["Excellent (Premium)"] ["Full-time"] .PaysOnTimeOnly
      [perfectRecord]).Sublist [perfectRecord] :=
  filtered_df_eq_filter 0 ["Excellent (Premium)"] ["Full-time"] .PaysOnTimeOnly
    [perfectRecord]

lemma nlargestLE_trans (a b c : Nat × TenantRecord) :
    nlargestLE a b → nlargestLE b c → nlargestLE a c := by
  simp only [nlargestLE, Bool.or_eq_true, Bool.and_eq_true, decide_eq_true_eq]
  rintro (h1 | ⟨h1, h1i⟩) (h2 | ⟨h2, h2i⟩)
  · exact Or.inl (lt_trans h2 h1)
  · exact Or.inl (h2 ▸ h1)
  · exact Or.inl (h1 ▸ h2)
  · exact Or.inr ⟨h1.trans h2, h1i.trans h2i⟩

lemma nlargestLE_total (a b : Nat × TenantRecord) :
    nlargestLE a b || nlargestLE b a := by
  simp only [nlargestLE, Bool.or_eq_true, Bool.and_eq_true, decide_eq_true_eq]
  rcases lt_trichotomy (calculate_tenant_score a.2) (calculate_tenant_score b.2)
    with h | h | h
  · tauto
  · rcases Nat.le_total a.1 b.1 with hi | hi <;> [left; right] <;>
      exact Or.inr ⟨by rw [h], hi⟩
  · tauto

lemma nlargestLE_score_le (p q : Nat × TenantRecord) (h : nlargestLE p q) :
    calculate_tenant_score q.2 ≤ calculate_tenant_score p.2 := by
  simp only [nlargestLE, Bool.or_eq_true, Bool.and_eq_true, decide_eq_true_eq] at h
  rcases h with h | ⟨h, -⟩
  · exact le_of_lt h
  · exact le_of_eq h.symm

/-- C8: the top-N view is a subset of the filtered set, has size
min(N, size), is sorted descending by quality score, and breaks ties
between equal scores by original input position. -/
theorem top_tenants_spec (n : Nat) (df : List TenantRecord) :
    (∀ r ∈ top_tenants n df, r ∈ df) ∧
    (top_tenants n df).length = min n df.length ∧
    (top_tenants n df).Pairwise
      (fun a b => calculate_tenant_score b ≤ calculate_tenant_score a) ∧
    (nlargestScore n df).Pairwise
      (fun p q => calculate_tenant_score p.2 = calculate_tenant_score q.2 →
        p.1 < q.1) := by
  have hperm := List.mergeSort_perm df.enum nlargestLE
  have hsorted : (df.enum.mergeSort nlargestLE).Pairwise (nlargestLE · ·) :=
    List.sorted_mergeSort nlargestLE_trans nlargestLE_total df.enum
  have htake : (nlargestScore n df).Pairwise (nlargestLE · ·) :=
    List.Pairwise.sublist (List.take_sublist n _) hsorted
  have hnodupfst : ((df.enum.mergeSort nlargestLE).map Prod.fst).Nodup :=
    ((hperm.map Prod.fst).symm).nodup (List.nodup_enum_map_fst df)
  have hne : (nlargestScore n df).Pairwise (fun p q => p.1 ≠ q.1) :=
    List.Pairwise.sublist (List.take_sublist n _) (List.pairwise_map.1 hnodupfst)
  refine ⟨?_, ?_, ?_, ?_⟩
  · intro r hr
    rcases List.mem_map.1 hr with ⟨p, hp, rfl⟩
    have hp1 : p ∈ df.enum.mergeSort nlargestLE := List.mem_of_mem_take hp
    have hp2 : p ∈ df.enum := List.mem_mergeSort.1 hp1
    have hp3 := List.mem_map_of_mem Prod.snd hp2
    rwa [List.enum_eq_enumFrom, List.enumFrom_map_snd] at hp3
  · simp [top_tenants, nlargestScore]
  · exact List.pairwise_map.2 (htake.imp fun h => nlargestLE_score_le _ _ h)
  · refine (htake.and hne).imp ?_
    rintro p q ⟨hle, hne'⟩ heq
    simp only [nlargestLE, Bool.or_eq_true, Bool.and_eq_true,
      decide_eq_true_eq] at hle
    rcases hle with h | ⟨-, h⟩
    · rw [heq] at h
      exact absurd h (lt_irrefl _)
    · exact lt_of_le_of_ne h hne'

theorem top_tenants_spec_witness :
    (∀ r ∈ top_tenants 1 [perfectRecord], r ∈ [perfectRecord]) ∧
    (top_tenants 1 [perfectRecord]).length = min 1 [perfectRecord].length ∧
    (top_tenants 1 [perfectRecord]).Pairwise
      (fun a b => calculate_tenant_score b ≤ calculate_tenant_score a) ∧
    (nlargestScore 1 [perfectRecord]).Pairwise
      (fun p q => calculate_tenant_score p.2 = calculate_tenant_score q.2 →
        p.1 < q.1) :=
  top_tenants_spec 1 [perfectRecord]

lemma youngRecord_score : calculate_tenant_score youngRecord = 92 := by
  simp +decide [calculate_tenant_score, paymentPoints, propertyCarePoints,
    cleanlinessPoints, stabilityPoints, financialPoints, referencePoints,
    lifestylePoints, youngRecord, perfectRecord, min_def]
  norm_num

lemma age_performance_young :
    age_performance [youngRecord] =
      [("18-25", some 92), ("26-35", none), ("36-45", none), ("45+", none)] := by
  have h : (["18-25", "26-35", "36-45", "45+"].map
      fun g => (g, ageGroupMean g [youngRecord])) =
      [("18-25", some 92), ("26-35", none), ("36-45", none), ("45+", none)] := by
    simp +decide [ageGroupMean, ageGroupOf, meanScore, youngRecord, perfectRecord,
      calculate_tenant_score, paymentPoints, propertyCarePoints,
      cleanlinessPoints, stabilityPoints, financialPoints, referencePoints,
      lifestylePoints, min_def]
    norm_num
  rw [age_performance, h]
  exact List.mergeSort_of_sorted (by decide)

/-- C5 fails as stated: on a filtered set holding one tenant aged 20, the
age-group aggregation of app.py line 465 still reports the empty 26-35
bucket (the groupby is over a categorical column, which keeps every
category, giving the empty bucket a NaN mean) instead of omitting it. -/
theorem age_performance_reports_empty_group :
    ("26-35", (none : Option ℚ)) ∈ age_performance [youngRecord] ∧
    [youngRecord].filter (fun r => decide (ageGroupOf r.age = some "26-35")) = [] := by
  constructor
  · rw [age_performance_young]; simp
  · simp +decide [ageGroupOf, youngRecord, perfectRecord]

/-- C5 amended: the three guarded aggregations (employed/unemployed split,
above/below-median income halves, fixed credit tiers) report a mean only
for non-empty groups and omit every empty group; the age-group
aggregation is the exception — it always reports all four age buckets,
giving empty buckets an undefined (NaN) mean instead of omitting them. -/
theorem guarded_groups_omit_empty (rs : List TenantRecord) :
    ((rs.filter fun r => decide (r.employmentStatus = "Unemployed")).length = 0 →
      employment_impact rs = none) ∧
    ((rs.filter fun r => decide (r.employmentStatus ≠ "Unemployed")).length = 0 →
      employment_impact rs = none) ∧
    (medianIncome rs = none → income_analysis rs = none) ∧
    (∀ m : ℚ, medianIncome rs = some m →
      (rs.filter fun r => decide (m ≤ r.annualIncome)).length = 0 →
      income_analysis rs = none) ∧
    (∀ m : ℚ, medianIncome rs = some m →
      (rs.filter fun r => decide (r.annualIncome < m)).length = 0 →
      income_analysis rs = none) ∧
    ((rs.filter fun r => decide (750 ≤ r.creditScore)).length = 0 →
      ∀ q : ℚ, ("Excellent credit (750+)", q) ∉ credit_impact rs) ∧
    ((rs.filter fun r =>
        decide (650 ≤ r.creditScore ∧ r.creditScore < 750)).length = 0 →
      ∀ q : ℚ, ("Good credit (650-749)", q) ∉ credit_impact rs) ∧
    ((rs.filter fun r => decide (r.creditScore < 650)).length = 0 →
      ∀ q : ℚ, ("Poor credit (<650)", q) ∉ credit_impact rs) ∧
    (age_performance rs).length = 4 := by
  refine ⟨?_, ?_, ?_, ?_, ?_, ?_, ?_, ?_, ?_⟩
  · intro h; simp [employment_impact, h]
  · intro h; simp_all [employment_impact]
  · intro h; simp [income_analysis, h]
  · intro m hm h; simp [income_analysis, hm, h]
  · intro m hm h; simp [income_analysis, hm, h]
  · intro h q
    simp only [credit_impact, h]
    split_ifs <;> first | (exfalso; omega) | simp +decide
  · intro h q
    simp only [credit_impact, h]
    split_ifs <;> first | (exfalso; omega) | simp +decide
  · intro h q
    simp only [credit_impact, h]
    split_ifs <;> first | (exfalso; omega) | simp +decide
  · simp [age_performance]

theorem guarded_groups_omit_empty_witness :
    ((List.filter (fun r => decide (r.employmentStatus = "Unemployed"))
        ([] : List TenantRecord)).length = 0 → employment_impact [] = none) ∧
    ((List.filter (fun r => decide (r.employmentStatus ≠ "Unemployed"))
        ([] : List TenantRecord)).length = 0 → employment_impact [] = none) ∧
    (medianIncome [] = none → income_analysis [] = none) ∧
    (∀ m : ℚ, medianIncome [] = some m →
      (List.filter (fun r => decide (m ≤ r.annualIncome))
        ([] : List TenantRecord)).length = 0 → income_analysis [] = none) ∧
    (∀ m : ℚ, medianIncome [] = some m →
      (List.filter (fun r => decide (r.annualIncome < m))
        ([] : List TenantRecord)).length = 0 → income_analysis [] = none) ∧
    ((List.filter (fun r => decide (750 ≤ r.creditScore))
        ([] : List TenantRecord)).length = 0 →
      ∀ q : ℚ, ("Excellent credit (750+)", q) ∉ credit_impact []) ∧
    ((List.filter (fun r => decide (650 ≤ r.creditScore ∧ r.creditScore < 750))
        ([] : List TenantRecord)).length = 0 →
      ∀ q : ℚ, ("Good credit (650-749)", q) ∉ credit_impact []) ∧
    ((List.filter (fun r => decide (r.creditScore < 650))
        ([] : List TenantRecord)).length = 0 →
      ∀ q : ℚ, ("Poor credit (<650)", q) ∉ credit_impact []) ∧
    (age_performance []).length = 4 :=
  guarded_groups_omit_empty []
